import Mathlib

/-!
Verification of the MUSA backend runtime of hipSYCL: a shallow embedding of
the control flow of src/src/runtime/musa/musa_queue.cpp,
src/src/runtime/musa/musa_instrumentation.cpp and the kernel-cache protocol,
with theorems settling the stated behavioural properties.

Device API calls are modelled by their observable outcome: every embedded
function takes the status the device would report as an argument and returns
the resulting control-flow effects (which API calls were issued, which errors
were registered, what the function returns).
-/

namespace MusaRt

/-- Status codes the MUSA device API can report, as distinguished by the
embedded control flow: musaSuccess, musaErrorNotReady, and any other error
(carrying its numeric code). -/
inductive MusaError
  | success
  | notReady
  | otherError (code : Nat)
deriving DecidableEq

/-- Numeric value of a status code, as produced by static_cast to int in the
source (musaErrorNotReady is 600 in the CUDA-compatible numbering). -/
def musaErrCode : MusaError → Nat
  | MusaError.success => 0
  | MusaError.notReady => 600
  | MusaError.otherError c => c

/-- Which API family an error_code names in the source: MUSA for the runtime
API (error_code with the MUSA tag) and MU for the driver API (the MU tag). -/
inductive ErrorApi
  | musaRuntime
  | musaDriver
deriving DecidableEq

/-- The result type of the runtime layer: make_success(), or make_error(...)
carrying an error_code (API family plus numeric device error code). -/
inductive RtResult
  | success
  | error (api : ErrorApi) (code : Nat)
deriving DecidableEq

/-- Device API calls the embedded functions can issue, identified by name;
used to state which calls a code path performs. -/
inductive MusaCall
  | streamSynchronize
  | streamDestroy
  | eventRecord
  | memPrefetchAsyncToHost
  | memPrefetchAsyncToDevice
deriving DecidableEq

/-- A three-dimensional extent or offset (rt::range of 3 / rt::id of 3):
component 0 is the outermost (slowest-varying) dimension and component 2 the
innermost (contiguous) dimension, as fixed by the musaMemcpy3D parameter
construction in submit_memcpy. -/
structure Range3 where
  r0 : Nat
  r1 : Nat
  r2 : Nat
deriving DecidableEq

/-- The zero offset, id of 3 default-constructed in the source. -/
def zeroId : Range3 := ⟨0, 0, 0⟩

/-- The data of one memcpy_operation as read by musa_queue::submit_memcpy:
transferred extent, allocation shapes and access offsets of both sides, and
the element sizes. -/
structure MemcpyOp where
  transfer : Range3
  srcShape : Range3
  dstShape : Range3
  srcOffset : Range3
  dstOffset : Range3
  srcElementSize : Nat
  dstElementSize : Nat
deriving DecidableEq

/-- Dimension selection by extents, musa_queue.cpp lines 285 to 291: 3 when
the outermost transfer extent exceeds 1, else 2 when the middle extent
exceeds 1, else 1. -/
def initialDimension (t : Range3) : Nat :=
  if t.r0 > 1 then 3
  else if t.r1 > 1 then 2
  else 1

/-- The full-buffer test of musa_queue.cpp lines 296 to 299: the transferred
extent equals both allocation shapes and both access offsets are zero. -/
def isFullBufferCopy (op : MemcpyOp) : Bool :=
  decide (op.transfer = op.srcShape) && decide (op.transfer = op.dstShape) &&
  decide (op.srcOffset = zeroId) && decide (op.dstOffset = zeroId)

/-- The dimension submit_memcpy dispatches on: the extent-based choice,
overridden to 1 for a full-buffer copy (lines 285 to 300). -/
def selectedDimension (op : MemcpyOp) : Nat :=
  if isFullBufferCopy op then 1 else initialDimension op.transfer

/-- Total transferred bytes, memcpy_operation::get_num_transferred_bytes:
the product of the transferred extents times the element size. -/
def transferredBytes (op : MemcpyOp) : Nat :=
  op.transfer.r0 * op.transfer.r1 * op.transfer.r2 * op.srcElementSize

/-- The three device copy calls submit_memcpy can issue, with the argument
data each receives (lines 308 to 346): musaMemcpyAsync with the flat byte
count; musaMemcpy2DAsync with destination pitch, source pitch, width in
bytes and height; musaMemcpy3DAsync with both pitches and the extent. -/
inductive MemcpyDispatch
  | oneD (bytes : Nat)
  | twoD (dpitch spitch widthBytes height : Nat)
  | threeD (srcPitch dstPitch extentWidthBytes extentHeight extentDepth : Nat)
deriving DecidableEq

/-- The dispatch musa_queue::submit_memcpy performs, as a function of the
operation data (lines 283 to 346). -/
def submit_memcpy_dispatch (op : MemcpyOp) : MemcpyDispatch :=
  let d := selectedDimension op
  if d = 1 then MemcpyDispatch.oneD (transferredBytes op)
  else if d = 2 then
    MemcpyDispatch.twoD (op.dstShape.r2 * op.dstElementSize)
      (op.srcShape.r2 * op.srcElementSize)
      (op.transfer.r2 * op.srcElementSize) op.transfer.r1
  else
    MemcpyDispatch.threeD (op.srcShape.r2 * op.srcElementSize)
      (op.dstShape.r2 * op.dstElementSize)
      (op.transfer.r2 * op.srcElementSize) op.transfer.r1 op.transfer.r0

/-- Boolean prefix test on character lists, the building block of the
substring search std::string::find performs in the source. -/
def isPrefixOfB : List Char → List Char → Bool
  | [], _ => true
  | _ :: _, [] => false
  | a :: as, b :: bs => a == b && isPrefixOfB as bs

/-- Substring containment as std::string::find notequal npos: the pattern
occurs contiguously somewhere in the string. -/
def containsSubstring : List Char → List Char → Bool
  | [], pat => isPrefixOfB pat []
  | b :: bs, pat => isPrefixOfB pat (b :: bs) || containsSubstring bs pat

/-- The loop of musa_queue.cpp lines 563 to 569: scan the supported backend
kernel names in order and keep the first one containing the partial backend
kernel name as a substring; the empty string when none matches. -/
def findFullKernelName (backendKernelName : List Char) :
    List (List Char) → List Char
  | [] => []
  | name :: rest =>
    if containsSubstring name backendKernelName then name
    else findFullKernelName backendKernelName rest

/-- Outcome of the kernel-name resolution step of
submit_multipass_kernel_from_code_object: either the launch proceeds with the
discovered full kernel name, or the function returns the error that the full
kernel name could not be discovered from the partial name. -/
inductive MultipassNameOutcome
  | launch (fullKernelName : List Char)
  | errorNameNotDiscovered
deriving DecidableEq

/-- Lines 563 to 577 of musa_queue.cpp: resolve the partial backend kernel
name against the code object's supported kernel names; an empty result means
the error return, any other result is launched. -/
def resolveMultipassKernelName (backendKernelName : List Char)
    (supported : List (List Char)) : MultipassNameOutcome :=
  let full := findFullKernelName backendKernelName supported
  if full.isEmpty then MultipassNameOutcome.errorNameNotDiscovered
  else MultipassNameOutcome.launch full

/-- How many supported kernel names contain the partial name as a
substring; used to state ambiguity of a partial name. -/
def matchingNameCount (backendKernelName : List Char)
    (supported : List (List Char)) : Nat :=
  (supported.filter (fun n => containsSubstring n backendKernelName)).length

/-- Call trace and count of registered errors of the musa_queue destructor,
musa_queue.cpp lines 212 to 219: one musaStreamDestroy call, whose failure is
registered; no other device API call is made. -/
def musa_queue_destructor (destroyStatus : MusaError) : List MusaCall × Nat :=
  ([MusaCall.streamDestroy],
   if destroyStatus = MusaError.success then 0 else 1)

/-- Outcome of musa_event_time_delta: the assertion on completeness fires, or
a duration is produced (in milliseconds, together with how many errors were
registered by a failing musaEventElapsedTime call). -/
inductive TimeDeltaOutcome
  | assertionFailure
  | elapsed (durationMs : Int) (errorsRegistered : Nat)
deriving DecidableEq

/-- musa_event_time_delta from musa_instrumentation.cpp lines 40 to 61: the
function asserts that both operands are complete; then it queries the device
for the elapsed time, registering an error and leaving the initial 0
milliseconds in place if the query fails, and returns the duration. The
completeness observations of the two operands and the device-reported
outcome of the elapsed-time query are the inputs of the embedding. -/
def musa_event_time_delta (t0Complete t1Complete : Bool)
    (deviceElapsedMs : Int) (apiStatus : MusaError) : TimeDeltaOutcome :=
  if !t0Complete then TimeDeltaOutcome.assertionFailure
  else if !t1Complete then TimeDeltaOutcome.assertionFailure
  else if apiStatus = MusaError.success then
    TimeDeltaOutcome.elapsed deviceElapsedMs 0
  else TimeDeltaOutcome.elapsed 0 1

/-- musa_queue::query_status, musa_queue.cpp lines 729 to 742: one
musaStreamQuery call; on musaSuccess the status out-parameter becomes
complete (true) and the result is success, on musaErrorNotReady it becomes
pending (false) and the result is success, and on any other code the
out-parameter is left unchanged and a structured error with the MU tag and
the device code is returned. -/
def query_status (deviceCondition : MusaError) (prevStatus : Bool) :
    Bool × RtResult :=
  match deviceCondition with
  | MusaError.success => (true, RtResult.success)
  | MusaError.notReady => (false, RtResult.success)
  | MusaError.otherError c =>
    (prevStatus, RtResult.error ErrorApi.musaDriver c)

/-- Observable effect of one submit_prefetch call: device API calls issued,
warnings emitted, and the returned result. -/
structure PrefetchEffect where
  deviceCalls : List MusaCall
  warnings : Nat
  result : RtResult
deriving DecidableEq

/-- musa_queue::submit_prefetch, musa_queue.cpp lines 377 to 402: when the
platform has asynchronous prefetch (the source guards with ifndef WIN32),
one musaMemPrefetchAsync call toward the host or the owning device is
issued and its failure returned as an error with the MUSA tag; on a platform
without it, no device call is made, one warning is printed and success is
returned. -/
def submit_prefetch (platformHasAsyncPrefetch : Bool) (targetIsHost : Bool)
    (apiStatus : MusaError) : PrefetchEffect :=
  if platformHasAsyncPrefetch then
    let call := if targetIsHost then MusaCall.memPrefetchAsyncToHost
                else MusaCall.memPrefetchAsyncToDevice
    if apiStatus = MusaError.success then
      { deviceCalls := [call], warnings := 0, result := RtResult.success }
    else
      { deviceCalls := [call], warnings := 0,
        result := RtResult.error ErrorApi.musaRuntime (musaErrCode apiStatus) }
  else
    { deviceCalls := [], warnings := 1, result := RtResult.success }

/-- Observable outcome of musa_queue::insert_event: the returned completion
marker (none models the null pointer) and how many errors were registered. -/
structure InsertEventOutcome where
  marker : Option Nat
  errorsRegistered : Nat
deriving DecidableEq

/-- musa_queue::insert_event, musa_queue.cpp lines 222 to 241: obtain an
event handle from the per-device pool (none models a failed obtain_event,
whose error is registered before null is returned); then record it on the
stream, registering the error and returning null if recording fails; only
when both succeed is a non-null marker wrapping the handle returned. -/
def insert_event (obtainedEvent : Option Nat)
    (recordStatus : Nat → MusaError) : InsertEventOutcome :=
  match obtainedEvent with
  | none => { marker := none, errorsRegistered := 1 }
  | some evt =>
    if recordStatus evt = MusaError.success then
      { marker := some evt, errorsRegistered := 0 }
    else
      { marker := none, errorsRegistered := 1 }

/-- Observable effect of one invocation of the host synchronization
callback: how often the heap-allocated node reference was deleted, whether
the wait of the task-graph node was invoked, and how many errors were
registered. -/
structure CallbackEffect where
  nodeDeletes : Nat
  waitInvoked : Bool
  errorsRegistered : Nat
deriving DecidableEq

/-- host_synchronization_callback, musa_queue.cpp lines 70 to 85: on a
non-success status an error is registered, otherwise the wait of the node is
invoked; in both cases the node reference passed as user data is deleted
exactly once at the end. -/
def host_synchronization_callback (status : MusaError) : CallbackEffect :=
  if status ≠ MusaError.success then
    { nodeDeletes := 1, waitInvoked := false, errorsRegistered := 1 }
  else
    { nodeDeletes := 1, waitInvoked := true, errorsRegistered := 0 }

/-- Modelled from the spec: the process-wide kernel cache state behind
kernel_cache::get_or_construct_code_object and
get_or_construct_jit_code_object (invoked from musa_queue.cpp lines 549 and
684; the kernel_cache implementation itself is not among the repository
files here). Code objects are keyed by the code-object configuration id and
compiled binary images by the binary configuration id; both stores are
append-only. Ids, images and code objects are modelled as naturals. -/
structure KernelCacheState where
  codeObjects : List (Nat × Nat)
  binaryImages : List (Nat × Nat)
deriving DecidableEq

/-- Lookup in an append-only association list, newest entry first. -/
def lookupEntry : List (Nat × Nat) → Nat → Option Nat
  | [], _ => none
  | (k, v) :: rest, q => if q = k then some v else lookupEntry rest q

/-- Modelled from the spec: the direct-construction protocol of the kernel
cache (spec section 4.3): on a hit the stored object is returned and the
factory is not invoked; on a miss the factory runs once (one build); a
failed build (none) caches nothing and is surfaced as none, a successful
build is stored under the id and returned. The cache serializes concurrent
requests internally, so a set of concurrent requests is modelled as the
sequence in which the cache admits them. Returns the new state, the object
handed to the requester, and how many builds this request executed. -/
def get_or_construct_code_object (st : KernelCacheState) (configId : Nat)
    (factory : Option Nat) : KernelCacheState × Option Nat × Nat :=
  match lookupEntry st.codeObjects configId with
  | some obj => (st, some obj, 0)
  | none =>
    match factory with
    | none => (st, none, 1)
    | some obj =>
      ({ st with codeObjects := (configId, obj) :: st.codeObjects }, some obj, 1)

/-- Modelled from the spec: the two-level JIT construction protocol of the
kernel cache (spec section 4.3): a code-object hit returns the stored object
with no compile and no link; on a code-object miss with a cached binary
image, compilation is skipped and only the constructor (link) runs; with
neither cached, the JIT compiler runs once, the image is cached, then the
constructor runs once and the object is cached. Returns the new state, the
object handed to the requester, and the numbers of compile and link builds
this request executed. -/
def get_or_construct_jit_code_object (st : KernelCacheState)
    (codeObjectId binaryId : Nat) (jitCompiler : Option Nat)
    (objectConstructor : Nat → Option Nat) :
    KernelCacheState × Option Nat × Nat × Nat :=
  match lookupEntry st.codeObjects codeObjectId with
  | some obj => (st, some obj, 0, 0)
  | none =>
    match lookupEntry st.binaryImages binaryId with
    | some img =>
      match objectConstructor img with
      | none => (st, none, 0, 1)
      | some obj =>
        ({ st with codeObjects := (codeObjectId, obj) :: st.codeObjects },
         some obj, 0, 1)
    | none =>
      match jitCompiler with
      | none => (st, none, 1, 0)
      | some img =>
        let st1 := { st with binaryImages := (binaryId, img) :: st.binaryImages }
        match objectConstructor img with
        | none => (st1, none, 1, 1)
        | some obj =>
          ({ st1 with codeObjects := (codeObjectId, obj) :: st1.codeObjects },
           some obj, 1, 1)

/-- Serial admission of a batch of direct-construction requests (the order
in which the cache lock admits a set of concurrent requesters): returns the
final state, each request's observed object in order, and the total number
of builds executed. -/
def processDirectRequests :
    KernelCacheState → List (Nat × Option Nat) →
    KernelCacheState × List (Option Nat) × Nat
  | st, [] => (st, [], 0)
  | st, (cid, f) :: rest =>
    let step := get_or_construct_code_object st cid f
    let restOut := processDirectRequests step.1 rest
    (restOut.1, step.2.1 :: restOut.2.1, step.2.2 + restOut.2.2)

/-- Serial admission of a batch of JIT requests: returns the final state,
each request's observed object in order, and the total numbers of compiles
and links executed. -/
def processJitRequests :
    KernelCacheState → List (Nat × Nat × Option Nat × (Nat → Option Nat)) →
    KernelCacheState × List (Option Nat) × Nat × Nat
  | st, [] => (st, [], 0, 0)
  | st, (cid, bid, jc, ctor) :: rest =>
    let step := get_or_construct_jit_code_object st cid bid jc ctor
    let restOut := processJitRequests step.1 rest
    (restOut.1, step.2.1 :: restOut.2.1,
     step.2.2.1 + restOut.2.2.1, step.2.2.2 + restOut.2.2.2)

end MusaRt

namespace MusaRt

/-- Helper: once the code object for an id is cached, every further direct
request with that id observes it and executes no build. -/
theorem processDirectRequests_hit (st : KernelCacheState) (k o : Nat)
    (f : Option Nat) (n : Nat)
    (h : lookupEntry st.codeObjects k = some o) :
    processDirectRequests st (List.replicate n (k, f)) =
      (st, List.replicate n (some o), 0) := by
  induction n with
  | zero => rfl
  | succ m ih =>
    simp [List.replicate_succ, processDirectRequests,
      get_or_construct_code_object, h, ih]

/-- Helper: once the code object for a code-object id is cached, every
further JIT request with that id observes it and executes no compile and no
link. -/
theorem processJitRequests_hit (st : KernelCacheState) (k b o : Nat)
    (jc : Option Nat) (ctor : Nat → Option Nat) (n : Nat)
    (h : lookupEntry st.codeObjects k = some o) :
    processJitRequests st (List.replicate n (k, b, jc, ctor)) =
      (st, List.replicate n (some o), 0, 0) := by
  induction n with
  | zero => rfl
  | succ m ih =>
    simp [List.replicate_succ, processJitRequests,
      get_or_construct_jit_code_object, h, ih]

/-- C2: for every memcpy operation whose transferred extent equals both the
source and the destination allocation shape and whose access offsets are both
zero, submit_memcpy selects the 1D dispatch path, a flat musaMemcpyAsync of
the total byte count, regardless of how many extents of the transfer range
exceed 1. -/
theorem submit_memcpy_full_buffer_is_1D (op : MemcpyOp)
    (h1 : op.transfer = op.srcShape) (h2 : op.transfer = op.dstShape)
    (h3 : op.srcOffset = zeroId) (h4 : op.dstOffset = zeroId) :
    selectedDimension op = 1 ∧
    submit_memcpy_dispatch op = MemcpyDispatch.oneD (transferredBytes op) := by
  have hf : isFullBufferCopy op = true := by
    simp [isFullBufferCopy, h1, h2, h3, h4, h1.symm.trans h2]
  refine ⟨by simp [selectedDimension, hf], ?_⟩
  simp [submit_memcpy_dispatch, selectedDimension, hf]

/-- Witness for C2: a concrete full-buffer copy of a 2 x 3 x 4 allocation
(all three extents exceed 1) takes the 1D path. -/
theorem submit_memcpy_full_buffer_is_1D_witness :
    selectedDimension ⟨⟨2,3,4⟩, ⟨2,3,4⟩, ⟨2,3,4⟩, ⟨0,0,0⟩, ⟨0,0,0⟩, 8, 8⟩ = 1 ∧
    submit_memcpy_dispatch ⟨⟨2,3,4⟩, ⟨2,3,4⟩, ⟨2,3,4⟩, ⟨0,0,0⟩, ⟨0,0,0⟩, 8, 8⟩ =
      MemcpyDispatch.oneD
        (transferredBytes ⟨⟨2,3,4⟩, ⟨2,3,4⟩, ⟨2,3,4⟩, ⟨0,0,0⟩, ⟨0,0,0⟩, 8, 8⟩) :=
  submit_memcpy_full_buffer_is_1D _ rfl rfl rfl rfl

/-- C3 counterexample: a partial (not full-buffer) transfer in which only the
leading (index 0) extent of the transfer range exceeds 1 selects the 3D
dispatch path, not the 1D path the claim states. -/
theorem memcpy_leading_dim_counterexample :
    isFullBufferCopy ⟨⟨2,1,1⟩, ⟨4,4,4⟩, ⟨4,4,4⟩, ⟨0,0,0⟩, ⟨0,0,0⟩, 4, 4⟩ = false ∧
    selectedDimension ⟨⟨2,1,1⟩, ⟨4,4,4⟩, ⟨4,4,4⟩, ⟨0,0,0⟩, ⟨0,0,0⟩, 4, 4⟩ = 3 ∧
    selectedDimension ⟨⟨2,1,1⟩, ⟨4,4,4⟩, ⟨4,4,4⟩, ⟨0,0,0⟩, ⟨0,0,0⟩, 4, 4⟩ ≠ 1 := by
  decide

/-- C3 amended: for every memcpy operation that is not a full-buffer copy,
submit_memcpy chooses the dispatch dimensionality by the outermost non-unit
extent of the transfer range: the 3D path whenever the outermost (index 0)
extent exceeds 1 (in particular for a genuinely three-dimensional sub-range),
the 2D path when only the middle extent exceeds 1, and the 1D path exactly
when only the innermost (index 2) extent can exceed 1. -/
theorem memcpy_partial_dim_selection (op : MemcpyOp)
    (h : isFullBufferCopy op = false) :
    (op.transfer.r0 > 1 → selectedDimension op = 3) ∧
    (op.transfer.r0 ≤ 1 → op.transfer.r1 > 1 → selectedDimension op = 2) ∧
    (op.transfer.r0 ≤ 1 → op.transfer.r1 ≤ 1 → selectedDimension op = 1) := by
  refine ⟨fun h0 => ?_, fun h0 h1 => ?_, fun h0 h1 => ?_⟩
  · simp [selectedDimension, initialDimension, h, h0]
  · have h0x : ¬ op.transfer.r0 > 1 := by omega
    simp [selectedDimension, initialDimension, h, h0x, h1]
  · have h0x : ¬ op.transfer.r0 > 1 := by omega
    have h1x : ¬ op.transfer.r1 > 1 := by omega
    simp [selectedDimension, initialDimension, h, h0x, h1x]

/-- Witness for C3 amended: a concrete partial 2 x 3 x 4 transfer out of a
5 x 5 x 5 allocation, whose outermost extent exceeds 1, selects the 3D path. -/
theorem memcpy_partial_dim_selection_witness :
    ((⟨⟨2,3,4⟩, ⟨5,5,5⟩, ⟨5,5,5⟩, ⟨0,0,0⟩, ⟨0,0,0⟩, 4, 4⟩ : MemcpyOp).transfer.r0 > 1 →
      selectedDimension ⟨⟨2,3,4⟩, ⟨5,5,5⟩, ⟨5,5,5⟩, ⟨0,0,0⟩, ⟨0,0,0⟩, 4, 4⟩ = 3) ∧
    ((⟨⟨2,3,4⟩, ⟨5,5,5⟩, ⟨5,5,5⟩, ⟨0,0,0⟩, ⟨0,0,0⟩, 4, 4⟩ : MemcpyOp).transfer.r0 ≤ 1 →
      (⟨⟨2,3,4⟩, ⟨5,5,5⟩, ⟨5,5,5⟩, ⟨0,0,0⟩, ⟨0,0,0⟩, 4, 4⟩ : MemcpyOp).transfer.r1 > 1 →
      selectedDimension ⟨⟨2,3,4⟩, ⟨5,5,5⟩, ⟨5,5,5⟩, ⟨0,0,0⟩, ⟨0,0,0⟩, 4, 4⟩ = 2) ∧
    ((⟨⟨2,3,4⟩, ⟨5,5,5⟩, ⟨5,5,5⟩, ⟨0,0,0⟩, ⟨0,0,0⟩, 4, 4⟩ : MemcpyOp).transfer.r0 ≤ 1 →
      (⟨⟨2,3,4⟩, ⟨5,5,5⟩, ⟨5,5,5⟩, ⟨0,0,0⟩, ⟨0,0,0⟩, 4, 4⟩ : MemcpyOp).transfer.r1 ≤ 1 →
      selectedDimension ⟨⟨2,3,4⟩, ⟨5,5,5⟩, ⟨5,5,5⟩, ⟨0,0,0⟩, ⟨0,0,0⟩, 4, 4⟩ = 1) :=
  memcpy_partial_dim_selection _ (by decide)

/-- Helper: the first-match loop equals find? on the supported name list. -/
theorem findFullKernelName_eq_findq (pat : List Char)
    (supported : List (List Char)) :
    findFullKernelName pat supported =
      ((supported.find? fun n => containsSubstring n pat).getD []) := by
  induction supported with
  | nil => rfl
  | cons a l ih =>
    rw [findFullKernelName, List.find?]
    by_cases hc : containsSubstring a pat = true
    · simp [hc]
    · simp only [Bool.not_eq_true] at hc
      simp [hc, ih]

/-- C4 counterexample: with supported kernel names foo1 and foo2, the
partial name foo matches both (no unique match), yet dispatch does not fail:
it launches the first match, foo1. -/
theorem multipass_ambiguous_name_counterexample :
    matchingNameCount ['f', 'o', 'o']
      [['f', 'o', 'o', '1'], ['f', 'o', 'o', '2']] = 2 ∧
    resolveMultipassKernelName ['f', 'o', 'o']
      [['f', 'o', 'o', '1'], ['f', 'o', 'o', '2']] =
      MultipassNameOutcome.launch ['f', 'o', 'o', '1'] := by
  decide

/-- C4 amended: for every multipass kernel dispatch whose supported kernel
names are all nonempty, dispatch fails with the name-not-discovered error
exactly when no supported name contains the partial name as a substring;
when one or more names match, the first matching name in list order is
launched (an ambiguous partial name is not rejected). -/
theorem multipass_name_resolution (pat : List Char)
    (supported : List (List Char)) (hne : ∀ n ∈ supported, n ≠ []) :
    (supported.find? (fun n => containsSubstring n pat) = none →
      resolveMultipassKernelName pat supported =
        MultipassNameOutcome.errorNameNotDiscovered) ∧
    (∀ n, supported.find? (fun n => containsSubstring n pat) = some n →
      resolveMultipassKernelName pat supported =
        MultipassNameOutcome.launch n) := by
  constructor
  · intro hnone
    simp [resolveMultipassKernelName, findFullKernelName_eq_findq, hnone]
  · intro n hsome
    have hmem : n ∈ supported := List.mem_of_find?_eq_some hsome
    have hne2 : n ≠ [] := hne n hmem
    simp [resolveMultipassKernelName, findFullKernelName_eq_findq, hsome,
      List.isEmpty_iff, hne2]

/-- Witness for C4 amended: concrete instantiation with one supported name
containing the partial name. -/
theorem multipass_name_resolution_witness :
    (([['f', '1']] : List (List Char)).find?
        (fun n => containsSubstring n ['f']) = none →
      resolveMultipassKernelName ['f'] [['f', '1']] =
        MultipassNameOutcome.errorNameNotDiscovered) ∧
    (∀ n, ([['f', '1']] : List (List Char)).find?
        (fun n => containsSubstring n ['f']) = some n →
      resolveMultipassKernelName ['f'] [['f', '1']] =
        MultipassNameOutcome.launch n) :=
  multipass_name_resolution ['f'] [['f', '1']] (by decide)

/-- C5 counterexample: the destructor of musa_queue issues no stream
synchronization call before releasing the stream; its whole device API trace
is the single musaStreamDestroy call. -/
theorem queue_destructor_counterexample :
    MusaCall.streamSynchronize ∉ (musa_queue_destructor MusaError.success).1 := by
  decide

/-- C5 amended: for every reported destroy status, destroying the queue
issues exactly one device API call, musaStreamDestroy, without a preceding
stream drain; a failing destroy is registered as an error and a successful
one registers none. -/
theorem queue_destructor_behaviour (e : MusaError) :
    (musa_queue_destructor e).1 = [MusaCall.streamDestroy] ∧
    MusaCall.streamSynchronize ∉ (musa_queue_destructor e).1 ∧
    (musa_queue_destructor e).2 = (if e = MusaError.success then 0 else 1) := by
  refine ⟨rfl, ?_, rfl⟩
  simp [musa_queue_destructor]

/-- C6: the elapsed-time computation ends in an assertion failure exactly
when not both operands are complete; whenever both operands are complete the
assertions never fire and a duration is produced, and an incomplete operand
yields the assertion failure, never a recoverable error result (the only
other outcome constructor is a produced duration). -/
theorem time_delta_contract (t0 t1 : Bool) (ms : Int) (s : MusaError) :
    (musa_event_time_delta t0 t1 ms s = TimeDeltaOutcome.assertionFailure ↔
      (t0 && t1) = false) ∧
    ((t0 && t1) = true →
      musa_event_time_delta t0 t1 ms s =
        (if s = MusaError.success then TimeDeltaOutcome.elapsed ms 0
         else TimeDeltaOutcome.elapsed 0 1)) := by
  cases t0 <;> cases t1 <;>
    by_cases hs : s = MusaError.success <;>
      simp [musa_event_time_delta, hs]

/-- Witness for C6: both operands complete on a concrete input produce a
duration and no assertion failure. -/
theorem time_delta_contract_witness :
    (musa_event_time_delta true true 5 MusaError.success =
        TimeDeltaOutcome.assertionFailure ↔ (true && true) = false) ∧
    ((true && true) = true →
      musa_event_time_delta true true 5 MusaError.success =
        (if MusaError.success = MusaError.success then
          TimeDeltaOutcome.elapsed 5 0
         else TimeDeltaOutcome.elapsed 0 1)) :=
  time_delta_contract true true 5 MusaError.success

/-- C7: query_status never blocks (it is a total function of the single
non-blocking stream query's reported condition) and: a finished stream sets
the status to complete and returns success; a not-ready stream sets it to
pending and returns success; any other device condition leaves the status
unchanged and returns a structured error carrying the device error code. -/
theorem query_status_cases (prev : Bool) (c : Nat) :
    query_status MusaError.success prev = (true, RtResult.success) ∧
    query_status MusaError.notReady prev = (false, RtResult.success) ∧
    query_status (MusaError.otherError c) prev =
      (prev, RtResult.error ErrorApi.musaDriver c) :=
  ⟨rfl, rfl, rfl⟩

/-- C8: on a platform lacking asynchronous prefetch support, submit_prefetch
issues no device call, emits exactly one warning, and returns success for
every target and every device status — never an error. -/
theorem submit_prefetch_no_async_support (targetIsHost : Bool)
    (apiStatus : MusaError) :
    submit_prefetch false targetIsHost apiStatus =
      { deviceCalls := [], warnings := 1, result := RtResult.success } := rfl

/-- C9: insert_event returns a non-null marker exactly when both the pool
acquisition and the event recording succeeded (and the marker wraps the
acquired handle); whenever it returns null, exactly one error was registered,
and no error is registered on the successful path. -/
theorem insert_event_contract (obtained : Option Nat)
    (recordStatus : Nat → MusaError) :
    ((insert_event obtained recordStatus).marker.isSome ↔
      ∃ evt, obtained = some evt ∧ recordStatus evt = MusaError.success) ∧
    (∀ evt, (insert_event obtained recordStatus).marker = some evt →
      obtained = some evt) ∧
    (insert_event obtained recordStatus).errorsRegistered =
      (if (insert_event obtained recordStatus).marker.isSome then 0 else 1) := by
  cases obtained with
  | none => simp [insert_event]
  | some evt =>
    by_cases hr : recordStatus evt = MusaError.success <;>
      simp [insert_event, hr]

/-- Witness for C9: concrete successful acquisition and recording yield the
non-null marker wrapping the handle and no registered error. -/
theorem insert_event_contract_witness :
    ((insert_event (some 3) (fun _ => MusaError.success)).marker.isSome ↔
      ∃ evt, (some 3 : Option Nat) = some evt ∧
        (fun _ => MusaError.success) evt = MusaError.success) ∧
    (∀ evt, (insert_event (some 3) (fun _ => MusaError.success)).marker =
        some evt → (some 3 : Option Nat) = some evt) ∧
    (insert_event (some 3) (fun _ => MusaError.success)).errorsRegistered =
      (if (insert_event (some 3)
            (fun _ => MusaError.success)).marker.isSome then 0 else 1) :=
  insert_event_contract (some 3) (fun _ => MusaError.success)

/-- C1: for every nonempty batch of concurrent code-object requests with an
identical configuration fingerprint, admitted serially by the cache lock
from a state in which the fingerprint is not yet cached, exactly one build
executes and every requester observes the single resulting code object: on
the direct multipass path the factory runs exactly once and all n
requesters receive the built object, and on the JIT SSCP path exactly one
compilation and exactly one link run and all n requesters receive the built
object. -/
theorem kernel_cache_single_build (st stj : KernelCacheState)
    (k o kj bj oj imgj n : Nat) (ctor : Nat → Option Nat)
    (hn : 0 < n)
    (hmiss : lookupEntry st.codeObjects k = none)
    (hjObj : lookupEntry stj.codeObjects kj = none)
    (hjImg : lookupEntry stj.binaryImages bj = none)
    (hctor : ctor imgj = some oj) :
    ((processDirectRequests st (List.replicate n (k, some o))).2.2 = 1 ∧
     (processDirectRequests st (List.replicate n (k, some o))).2.1 =
       List.replicate n (some o)) ∧
    ((processJitRequests stj
        (List.replicate n (kj, bj, some imgj, ctor))).2.2.1 = 1 ∧
     (processJitRequests stj
        (List.replicate n (kj, bj, some imgj, ctor))).2.2.2 = 1 ∧
     (processJitRequests stj
        (List.replicate n (kj, bj, some imgj, ctor))).2.1 =
       List.replicate n (some oj)) := by
  obtain ⟨m, rfl⟩ : ∃ m, n = m + 1 := ⟨n - 1, by omega⟩
  constructor
  · have hhit :
        lookupEntry ((k, o) :: st.codeObjects) k = some o := by
      simp [lookupEntry]
    rw [List.replicate_succ]
    simp [processDirectRequests, get_or_construct_code_object, hmiss,
      processDirectRequests_hit
        ⟨(k, o) :: st.codeObjects, st.binaryImages⟩ k o (some o) m hhit,
      List.replicate_succ]
  · have hhit :
        lookupEntry ((kj, oj) :: stj.codeObjects) kj = some oj := by
      simp [lookupEntry]
    rw [List.replicate_succ]
    simp [processJitRequests, get_or_construct_jit_code_object, hjObj,
      hjImg, hctor,
      processJitRequests_hit
        ⟨(kj, oj) :: stj.codeObjects, (bj, imgj) :: stj.binaryImages⟩
        kj bj oj (some imgj) ctor m hhit,
      List.replicate_succ]

/-- Witness for C1: two concurrent requests per path from the empty cache:
one build on the direct path, one compile and one link on the JIT path, and
both requesters of each path observe the one built object. -/
theorem kernel_cache_single_build_witness :
    ((processDirectRequests ⟨[], []⟩ (List.replicate 2 (1, some 10))).2.2 = 1 ∧
     (processDirectRequests ⟨[], []⟩ (List.replicate 2 (1, some 10))).2.1 =
       List.replicate 2 (some 10)) ∧
    ((processJitRequests ⟨[], []⟩
        (List.replicate 2 (2, 3, some 5, fun img => some (img + 6)))).2.2.1 = 1 ∧
     (processJitRequests ⟨[], []⟩
        (List.replicate 2 (2, 3, some 5, fun img => some (img + 6)))).2.2.2 = 1 ∧
     (processJitRequests ⟨[], []⟩
        (List.replicate 2 (2, 3, some 5, fun img => some (img + 6)))).2.1 =
       List.replicate 2 (some 11)) :=
  kernel_cache_single_build ⟨[], []⟩ ⟨[], []⟩ 1 10 2 3 11 5 2
    (fun img => some (img + 6)) (by decide) rfl rfl rfl rfl

/-- C10: for every reported device status, the host synchronization callback
deletes the heap-allocated node reference exactly once; the wait of the
task-graph node is invoked exactly when the device reported success; and on
any non-success status exactly one error is registered and the completion of
the node is never signaled. -/
theorem host_sync_callback_contract (status : MusaError) :
    (host_synchronization_callback status).nodeDeletes = 1 ∧
    ((host_synchronization_callback status).waitInvoked = true ↔
      status = MusaError.success) ∧
    (host_synchronization_callback status).errorsRegistered =
      (if status = MusaError.success then 0 else 1) := by
  by_cases hs : status = MusaError.success <;>
    simp [host_synchronization_callback, hs]

end MusaRt
